import Mathlib

/-!
Shallow embedding of the multi-band playback engine of `mix-check`
(`src/services/audioEngine.ts`) together with the stem-control handlers of
`src/App.tsx` and the rendering guard of `src/components/Visualizer.tsx`.

Times, gains and the engine clock are modelled as rationals (`ℚ`); the
free-running `AudioContext.currentTime` clock is passed explicitly to every
operation that reads it.  Web Audio platform objects are modelled by the
parameters the engine sets on them: a `BiquadFilterNode` by its type, cutoff
frequency and (fixed, per the Web Audio specification) second order; a
`GainNode` by its automation state (`GainParam`); the `AnalyserNode` by its
`fftSize` and `smoothingTimeConstant`.  `connect`/`disconnect` calls are
recorded as an edge list over the named nodes of the current graph.
-/

namespace MixCheck

/-- The `type` value assigned to a `BiquadFilterNode` by the engine
(`'lowpass'` or `'highpass'` are the only ones used). -/
inductive FilterType where
  | lowpass
  | highpass
deriving DecidableEq, Repr

/-- A `BiquadFilterNode` as configured by the engine: its `type`, its
`frequency.value`, and its order, which the Web Audio specification fixes at
two (a biquad is a second-order section). -/
structure BiquadFilterDesc where
  ftype : FilterType
  frequency : ℚ
  order : Nat := 2
deriving DecidableEq, Repr

/-- Automation state of a `GainNode`'s `gain` `AudioParam`.  A freshly created
node (`context.createGain()`) is `initial`, whose value is the Web Audio
default `1`.  `setTargetAtTime(value, time, timeConstant)` replaces the state
with `targetAt value time timeConstant` (an exponential approach to `value`
starting at `time` with the given time constant). -/
inductive GainParam where
  | initial
  | targetAt (value time timeConstant : ℚ)
deriving DecidableEq, Repr

/-- The value a `GainParam` is at (for `initial`) or heading to (for
`targetAt`): the settled gain of the node once any ramp completes. -/
def GainParam.currentTargetValue : GainParam → ℚ
  | .initial => 1
  | .targetAt v _ _ => v

/-- An `AnalyserNode` as configured by the engine (`fftSize` and
`smoothingTimeConstant`); its bin count is `fftSize / 2`. -/
structure AnalyserDesc where
  fftSize : Nat
  smoothingTimeConstant : ℚ
deriving DecidableEq, Repr

/-- A decoded `AudioBuffer`; the engine only reads its `duration`. -/
structure AudioBuffer where
  duration : ℚ
deriving DecidableEq, Repr

/-- An `AudioBufferSourceNode` after `sourceNode.buffer = buffer` and
`sourceNode.start(0, offset)`. -/
structure SourceDesc where
  buf : AudioBuffer
  startOffset : ℚ
deriving DecidableEq, Repr

/-- The nodes of the engine's graph, for recording `connect` edges. -/
inductive Node where
  | source
  | lowFilter
  | midLowFilter
  | midHighFilter
  | highFilter
  | lowGain
  | midGain
  | highGain
  | masterGain
  | analyser
  | destination
deriving DecidableEq, Repr

/-- The stem identifiers `'low' | 'mid' | 'high'`. -/
inductive Stem where
  | low
  | mid
  | high
deriving DecidableEq, Repr

/-- The fields of the `AudioEngine` class.  `hasContext` records whether the
constructor obtained an `AudioContext`; each nullable node field is an
`Option`; `connections` is the edge list of the most recently built graph. -/
structure EngineState where
  hasContext : Bool
  buffer : Option AudioBuffer
  sourceNode : Option SourceDesc
  masterGain : Option GainParam
  analyser : Option AnalyserDesc
  lowFilter : Option BiquadFilterDesc
  midLowFilter : Option BiquadFilterDesc
  midHighFilter : Option BiquadFilterDesc
  highFilter : Option BiquadFilterDesc
  lowGain : Option GainParam
  midGain : Option GainParam
  highGain : Option GainParam
  connections : List (Node × Node)
  startTime : ℚ
  pausedAt : ℚ
  isPlaying : Bool
deriving DecidableEq, Repr

/-- The state produced by the `AudioEngine` constructor: every node and the
buffer are null, `startTime = 0`, `pausedAt = 0`, `isPlaying = false`.
`hasCtx` is whether `window.AudioContext` was available. -/
def initState (hasCtx : Bool) : EngineState :=
  { hasContext := hasCtx
    buffer := none
    sourceNode := none
    masterGain := none
    analyser := none
    lowFilter := none
    midLowFilter := none
    midHighFilter := none
    highFilter := none
    lowGain := none
    midGain := none
    highGain := none
    connections := []
    startTime := 0
    pausedAt := 0
    isPlaying := false }

/-- The `connect` calls issued while building the graph in `play()`, in
source order: the source fans out to the three filter chains, the mid chain
cascades high-pass into low-pass, each chain's gain feeds the master gain,
and the master gain feeds the analyser which feeds the destination. -/
def playConnections : List (Node × Node) :=
  [ (.source, .lowFilter)
  , (.source, .midLowFilter)
  , (.source, .highFilter)
  , (.lowFilter, .lowGain)
  , (.lowGain, .masterGain)
  , (.midLowFilter, .midHighFilter)
  , (.midHighFilter, .midGain)
  , (.midGain, .masterGain)
  , (.highFilter, .highGain)
  , (.highGain, .masterGain)
  , (.masterGain, .analyser)
  , (.analyser, .destination) ]

/-- `AudioEngine.play()`.  Returns unchanged if there is no context or no
buffer, and if already playing (`if (!this.isPlaying)` guards the whole
build).  Otherwise it creates a fresh source and node graph — low-pass 250 Hz
for Low; high-pass 250 Hz into low-pass 4000 Hz for Mid; high-pass 4000 Hz
for High; fresh gain nodes (default gain 1); analyser with `fftSize = 2048`
and smoothing `0.85` — starts the source at `offset = pausedAt`, and records
`startTime = currentTime - offset`.  `c` is `context.currentTime`. -/
def play (c : ℚ) (s : EngineState) : EngineState :=
  if s.hasContext = false then s
  else
    match s.buffer with
    | none => s
    | some b =>
      if s.isPlaying then s
      else
        let offset := s.pausedAt
        { s with
          sourceNode := some { buf := b, startOffset := offset }
          masterGain := some .initial
          analyser := some { fftSize := 2048, smoothingTimeConstant := 85/100 }
          lowFilter := some { ftype := .lowpass, frequency := 250 }
          lowGain := some .initial
          midLowFilter := some { ftype := .highpass, frequency := 250 }
          midHighFilter := some { ftype := .lowpass, frequency := 4000 }
          midGain := some .initial
          highFilter := some { ftype := .highpass, frequency := 4000 }
          highGain := some .initial
          connections := playConnections
          startTime := c - offset
          isPlaying := true }

/-- `AudioEngine.pause()`.  Returns unchanged if there is no context, not
playing, or no source node.  Otherwise stores
`pausedAt = currentTime - startTime`, stops and disconnects the source
(removing its outgoing edges), nulls it, and clears `isPlaying`. -/
def pause (c : ℚ) (s : EngineState) : EngineState :=
  if s.hasContext = false then s
  else if s.isPlaying = false then s
  else
    match s.sourceNode with
    | none => s
    | some _ =>
      { s with
        pausedAt := c - s.startTime
        sourceNode := none
        connections := s.connections.filter (fun e => e.1 ≠ Node.source)
        isPlaying := false }

/-- `AudioEngine.stop()`: `pause()` then `pausedAt = 0`. -/
def stop (c : ℚ) (s : EngineState) : EngineState :=
  { pause c s with pausedAt := 0 }

/-- `AudioEngine.seek(time)`.  Returns unchanged if there is no context or no
buffer.  Otherwise pauses if playing (reading the clock as `c₁`), sets
`pausedAt = time` with no clamping, and resumes with `play()` (reading the
clock as `c₂`) if it had been playing. -/
def seek (c₁ c₂ : ℚ) (time : ℚ) (s : EngineState) : EngineState :=
  if s.hasContext = false then s
  else
    match s.buffer with
    | none => s
    | some _ =>
      let wasPlaying := s.isPlaying
      let s₁ := if wasPlaying then pause c₁ s else s
      let s₂ := { s₁ with pausedAt := time }
      if wasPlaying then play c₂ s₂ else s₂

/-- `AudioEngine.setStemVolume(stem, value)`.  Returns unchanged if there is
no context.  Otherwise, if the addressed gain node exists, calls
`gain.setTargetAtTime(value, currentTime, 0.1)` on it — no clamping of
`value` — and otherwise does nothing. -/
def setStemVolume (c : ℚ) (stem : Stem) (value : ℚ) (s : EngineState) :
    EngineState :=
  if s.hasContext = false then s
  else
    match stem with
    | .low =>
      match s.lowGain with
      | none => s
      | some _ => { s with lowGain := some (.targetAt value c (1/10)) }
    | .mid =>
      match s.midGain with
      | none => s
      | some _ => { s with midGain := some (.targetAt value c (1/10)) }
    | .high =>
      match s.highGain with
      | none => s
      | some _ => { s with highGain := some (.targetAt value c (1/10)) }

/-- `AudioEngine.getAnalyser()`: returns the stored analyser node, null when
none has been created. -/
def getAnalyser (s : EngineState) : Option AnalyserDesc :=
  s.analyser

/-- `AudioEngine.getCurrentTime()`: `pausedAt` when there is no context or
not playing, else `currentTime - startTime`. -/
def getCurrentTime (c : ℚ) (s : EngineState) : ℚ :=
  if s.hasContext = false then s.pausedAt
  else if s.isPlaying = false then s.pausedAt
  else c - s.startTime

/-- `AudioEngine.getDuration()`: the buffer's duration, or 0 without one. -/
def getDuration (s : EngineState) : ℚ :=
  match s.buffer with
  | some b => b.duration
  | none => 0

/-- Outcome of `AudioEngine.loadFile`'s promise: the decoded buffer, or a
rejection carrying the thrown error's message. -/
inductive LoadResult where
  | ok (b : AudioBuffer)
  | error (msg : String)
deriving DecidableEq, Repr

/-- `AudioEngine.loadFile(file)`.  Throws if there is no context.  Otherwise
it first calls `stop()` and nulls `buffer` — before attempting any decode —
then decodes; `decoded` is the outcome of `context.decodeAudioData` (`none`
for a decode failure).  On success it stores the buffer, zeroes `pausedAt`
and `startTime`, and resolves with the buffer; on failure it throws, leaving
the already-cleared state. -/
def loadFile (c : ℚ) (decoded : Option AudioBuffer) (s : EngineState) :
    EngineState × LoadResult :=
  if s.hasContext = false then (s, .error "AudioContext not supported")
  else
    let s₁ := { stop c s with buffer := none }
    match decoded with
    | some b =>
      ({ s₁ with buffer := some b, pausedAt := 0, startTime := 0 }, .ok b)
    | none => (s₁, .error "Failed to decode audio data.")

/-- The gain node addressed by a stem id. -/
def stemGainParam (s : EngineState) : Stem → Option GainParam
  | .low => s.lowGain
  | .mid => s.midGain
  | .high => s.highGain

/-- The settled target value of a stem's gain node, when the node exists. -/
def stemGainTarget (s : EngineState) (stem : Stem) : Option ℚ :=
  (stemGainParam s stem).map GainParam.currentTargetValue

/-! ### The App's stem-control state (`src/App.tsx`)

`App` keeps React state `stemVolumes` (one slider value per stem) and
`stemMutes` (one flag per stem); its handlers update that state and call
`audioEngine.setStemVolume`. -/

/-- One value per stem, as in the `{ low, mid, high }` record literals. -/
structure StemMap (α : Type) where
  low : α
  mid : α
  high : α
deriving DecidableEq, Repr

/-- Read the entry for a stem. -/
def StemMap.get (m : StemMap α) : Stem → α
  | .low => m.low
  | .mid => m.mid
  | .high => m.high

/-- The spread-update `{ ...m, [id]: v }`. -/
def StemMap.set (m : StemMap α) : Stem → α → StemMap α
  | .low, v => { m with low := v }
  | .mid, v => { m with mid := v }
  | .high, v => { m with high := v }

/-- The App state the stem handlers touch, together with the engine they
drive. -/
structure AppState where
  stemVolumes : StemMap ℚ
  stemMutes : StemMap Bool
  engine : EngineState
deriving DecidableEq, Repr

/-- `handleStemVolumeChange(id, val)`: stores the new slider value, and
forwards it to the engine only when the stem is not muted.  `c` is the
engine clock at the forwarded call. -/
def handleStemVolumeChange (c : ℚ) (id : Stem) (val : ℚ) (a : AppState) :
    AppState :=
  { a with
    stemVolumes := a.stemVolumes.set id val
    engine :=
      if a.stemMutes.get id then a.engine
      else setStemVolume c id val a.engine }

/-- `handleStemMute(id)`: toggles the stem's mute flag and forwards
`0` (now muted) or the stored slider value (now unmuted) to the engine. -/
def handleStemMute (c : ℚ) (id : Stem) (a : AppState) : AppState :=
  let newMuted := ! a.stemMutes.get id
  { a with
    stemMutes := a.stemMutes.set id newMuted
    engine :=
      setStemVolume c id (if newMuted then 0 else a.stemVolumes.get id)
        a.engine }

/-! ### The Visualizer's render step (`src/components/Visualizer.tsx`)

Each animation frame, `render` fetches the analyser; when it is null it only
schedules the next frame and draws nothing, otherwise it draws
`analyser.frequencyBinCount` (= `fftSize / 2`) bars. -/

/-- One `render` pass of the Visualizer, abstracted to what it draws: `none`
when the frame is skipped because the analyser is null, otherwise the number
of bars drawn (the analyser's `frequencyBinCount`). -/
def visualizerStep (an : Option AnalyserDesc) : Option Nat :=
  match an with
  | none => none
  | some a => some (a.fftSize / 2)

/-! ### Operation traces -/

/-- One call into the engine's public API, with the engine-clock value(s) it
reads; `loadFail` is a `loadFile` whose decode rejects. -/
inductive Op where
  | play (c : ℚ)
  | pause (c : ℚ)
  | stop (c : ℚ)
  | seek (c₁ c₂ t : ℚ)
  | setVol (c : ℚ) (stem : Stem) (v : ℚ)
  | loadFail (c : ℚ)
deriving DecidableEq, Repr

/-- Apply one operation to the engine state. -/
def applyOp (s : EngineState) : Op → EngineState
  | .play c => play c s
  | .pause c => pause c s
  | .stop c => stop c s
  | .seek c₁ c₂ t => seek c₁ c₂ t s
  | .setVol c stem v => setStemVolume c stem v s
  | .loadFail c => (loadFile c none s).1

/-- Apply a sequence of operations, left to right. -/
def applyOps (ops : List Op) (s : EngineState) : EngineState :=
  ops.foldl applyOp s

/-- `Modelled from the spec:` the clamping that §4.4/§7 of the spec claim for
parameter ranges — `clamp t to [lo, hi]` — for comparison with what the code
actually stores. -/
def specClamp (lo hi x : ℚ) : ℚ :=
  max lo (min hi x)

/-! ### Concrete states used by witnesses and counterexamples -/

/-- An engine that successfully loaded a 10-second buffer at clock 0. -/
def sLoaded : EngineState :=
  (loadFile 0 (some { duration := 10 }) (initState true)).1

/-- `sLoaded` after `play()` at clock 2 (so `startTime = 2`). -/
def sPlaying : EngineState :=
  play 2 sLoaded

/-- `sPlaying` after `pause()` at clock 5 (so `pausedAt = 3`). -/
def sPaused : EngineState :=
  pause 5 sPlaying

/-- `sLoaded` after `seek(-1)`: `pausedAt` is stored as `-1`, unclamped. -/
def sSeekNeg : EngineState :=
  seek 0 0 (-1) sLoaded

/-- `sPlaying` after `setStemVolume('low', 3/2)` at clock 3: the gain target
is stored as `3/2`, unclamped. -/
def sPlayingVol : EngineState :=
  setStemVolume 3 .low (3/2) sPlaying

/-- `sPaused` after `setStemVolume('low', 1/2)` at clock 6: accepted while
paused (the stale node from the previous run still exists). -/
def sPausedVol : EngineState :=
  setStemVolume 6 .low (1/2) sPaused

/-- `sPausedVol` after `play()` at clock 7: the freshly built graph's gain
nodes are all at the default value 1. -/
def sReplayed : EngineState :=
  play 7 sPausedVol

/-- An App state whose engine is `sPlaying`, all sliders at 1, none muted. -/
def appLoaded : AppState :=
  { stemVolumes := { low := 1, mid := 1, high := 1 }
    stemMutes := { low := false, mid := false, high := false }
    engine := sPlaying }

/-! ## Helper lemmas -/

/-- Reading back a just-written stem entry. -/
theorem StemMap.get_set {α : Type} (m : StemMap α) (id : Stem) (v : α) :
    (m.set id v).get id = v := by
  cases id <;> rfl

/-- `setStemVolume` touches only the addressed gain node: context flag,
buffer and playing flag are unchanged. -/
theorem setStemVolume_preserves (c : ℚ) (stem : Stem) (v : ℚ)
    (s : EngineState) :
    (setStemVolume c stem v s).hasContext = s.hasContext ∧
    (setStemVolume c stem v s).buffer = s.buffer ∧
    (setStemVolume c stem v s).isPlaying = s.isPlaying := by
  unfold setStemVolume
  split
  · exact ⟨rfl, rfl, rfl⟩
  · cases stem
    · cases s.lowGain <;> exact ⟨rfl, rfl, rfl⟩
    · cases s.midGain <;> exact ⟨rfl, rfl, rfl⟩
    · cases s.highGain <;> exact ⟨rfl, rfl, rfl⟩

/-- When the context and the addressed gain node exist, `setStemVolume`
replaces the node's automation state with `setTargetAtTime(v, c, 0.1)`. -/
theorem setStemVolume_gainParam (c : ℚ) (stem : Stem) (v : ℚ)
    (s : EngineState) (hctx : s.hasContext = true)
    (hnode : (stemGainParam s stem).isSome = true) :
    stemGainParam (setStemVolume c stem v s) stem
      = some (.targetAt v c (1/10)) := by
  cases stem <;> simp only [stemGainParam] at hnode ⊢ <;>
    obtain ⟨g, hg⟩ := Option.isSome_iff_exists.mp hnode <;>
    simp [setStemVolume, hctx, hg, stemGainParam]

/-- A `play()` from a non-playing state with a buffer builds every stem gain
node afresh, at the Web Audio default automation state (value 1). -/
theorem play_stemGainParam (c : ℚ) (s : EngineState) (b : AudioBuffer)
    (stem : Stem) (hctx : s.hasContext = true) (hbuf : s.buffer = some b)
    (hplay : s.isPlaying = false) :
    stemGainParam (play c s) stem = some .initial := by
  cases stem <;> simp [play, stemGainParam, hctx, hbuf, hplay]

/-- `pause` never touches the analyser field. -/
theorem pause_analyser (c : ℚ) (s : EngineState) :
    (pause c s).analyser = s.analyser := by
  unfold pause
  split
  · rfl
  · split
    · rfl
    · cases s.sourceNode <;> rfl

/-- Every operation maps the freshly constructed engine to itself: each one
guards on the missing buffer, the clear playing flag, or the missing nodes. -/
theorem applyOp_initState (b : Bool) (op : Op) :
    applyOp (initState b) op = initState b := by
  cases op <;> cases b <;>
    simp [applyOp, play, pause, stop, seek, setStemVolume, loadFile,
      initState] <;>
    split <;> rfl

/-! ## Claim theorems -/

/-- C4: calling `play()` while the engine is already playing is the
identity on the engine state — no node field, the connection list,
`startTime` and `pausedAt` are all left unchanged, because the whole graph
build is guarded by `if (!this.isPlaying)`. -/
theorem play_noop_when_playing (c : ℚ) (s : EngineState)
    (h : s.isPlaying = true) : play c s = s := by
  unfold play
  cases hc : s.hasContext <;> cases hb : s.buffer <;> simp [hc, hb, h]

/-- Witness for C4 at the concrete playing state `sPlaying` and clock 7. -/
theorem play_noop_when_playing_witness :
    sPlaying.isPlaying = true ∧ play 7 sPlaying = sPlaying :=
  ⟨by decide, play_noop_when_playing 7 sPlaying (by decide)⟩

/-- C10: before any asset has been loaded, every sequence of `play`,
`pause`, `stop`, `seek`, `setStemVolume` and failing `loadFile` calls leaves
the engine exactly in its constructed state, and `getCurrentTime` and
`getDuration` both report 0.  (All operations are total functions in this
model — none raises an error.) -/
theorem empty_phase_ops_noop (b : Bool) (ops : List Op) (c : ℚ) :
    applyOps ops (initState b) = initState b ∧
    getCurrentTime c (initState b) = 0 ∧
    getDuration (initState b) = 0 := by
  refine ⟨?_, by cases b <;> rfl, rfl⟩
  induction ops with
  | nil => rfl
  | cons op rest ih =>
    show List.foldl applyOp (applyOp (initState b) op) rest = initState b
    rw [applyOp_initState]
    exact ih

/-- C3: while playing, `getCurrentTime()` reports
`currentEngineClock - startTime` and otherwise the stored `pausedAt`;
`play()` from a non-playing state records
`startTime = currentEngineClock - pausedAt`; `pause()` from a playing state
stores `pausedAt = currentEngineClock - startTime`; hence the position is
frozen across a pause and the next `play()` resumes from the same point. -/
theorem position_query_formula (s t : EngineState) (b b' : AudioBuffer)
    (c₁ c₂ c₃ : ℚ)
    (hctx : s.hasContext = true) (hbuf : s.buffer = some b)
    (hplay : s.isPlaying = true) (hsrc : s.sourceNode.isSome = true)
    (htctx : t.hasContext = true) (htplay : t.isPlaying = false)
    (htbuf : t.buffer = some b') :
    getCurrentTime c₁ s = c₁ - s.startTime ∧
    getCurrentTime c₃ t = t.pausedAt ∧
    (play c₃ t).startTime = c₃ - t.pausedAt ∧
    (pause c₁ s).pausedAt = c₁ - s.startTime ∧
    getCurrentTime c₂ (pause c₁ s) = c₁ - s.startTime ∧
    (play c₂ (pause c₁ s)).startTime = c₂ - (c₁ - s.startTime) ∧
    getCurrentTime c₂ (play c₂ (pause c₁ s)) = c₁ - s.startTime := by
  obtain ⟨src, hs⟩ := Option.isSome_iff_exists.mp hsrc
  refine ⟨?_, ?_, ?_, ?_, ?_, ?_, ?_⟩
  · simp [getCurrentTime, hctx, hplay]
  · simp [getCurrentTime, htctx, htplay]
  · simp [play, htctx, htbuf, htplay]
  · simp [pause, hctx, hplay, hs]
  · simp [getCurrentTime, pause, hctx, hplay, hs]
  · simp [play, pause, hctx, hplay, hs, hbuf]
  · simp [getCurrentTime, play, pause, hctx, hplay, hs, hbuf]

/-- Witness for C3 at the concrete playing state `sPlaying` (paused at
clock 5, resumed at clock 6) and the loaded state `sLoaded` (played at
clock 7). -/
theorem position_query_formula_witness :
    getCurrentTime 5 sPlaying = 5 - sPlaying.startTime ∧
    getCurrentTime 7 sLoaded = sLoaded.pausedAt ∧
    (play 7 sLoaded).startTime = 7 - sLoaded.pausedAt ∧
    (pause 5 sPlaying).pausedAt = 5 - sPlaying.startTime ∧
    getCurrentTime 6 (pause 5 sPlaying) = 5 - sPlaying.startTime ∧
    (play 6 (pause 5 sPlaying)).startTime = 6 - (5 - sPlaying.startTime) ∧
    getCurrentTime 6 (play 6 (pause 5 sPlaying)) = 5 - sPlaying.startTime :=
  position_query_formula sPlaying sLoaded { duration := 10 }
    { duration := 10 } 5 6 7 (by decide) (by decide) (by decide) (by decide)
    (by decide) (by decide) (by decide)

/-- C1 is false as stated: `seek(-1)` on a loaded 10-second buffer stores
`-1` and `getCurrentTime()` then reports `-1`, outside `[0, duration]`;
and while playing, at engine clock 20 the reported position is 18, beyond
the 10-second buffer duration — no clamping happens anywhere. -/
theorem position_bound_counterexample :
    getCurrentTime 0 sSeekNeg = -1 ∧
    ¬ (0 ≤ getCurrentTime 0 sSeekNeg ∧
        getCurrentTime 0 sSeekNeg ≤ getDuration sSeekNeg) ∧
    getCurrentTime 20 sPlaying = 18 ∧
    ¬ (getCurrentTime 20 sPlaying ≤ getDuration sPlaying) := by
  have h0 : getCurrentTime 0 sSeekNeg = -1 := by decide
  have hd : getDuration sSeekNeg = 10 := by decide
  have h1 : getCurrentTime 20 sPlaying = 18 := by
    norm_num [getCurrentTime, sPlaying, play, sLoaded, loadFile, stop,
      pause, initState]
  have h2 : getDuration sPlaying = 10 := by decide
  refine ⟨h0, ?_, h1, ?_⟩
  · rw [h0, hd]
    norm_num
  · rw [h1, h2]
    norm_num

/-- C1 (amended): while the engine is in the playing phase, the position
reported by `getCurrentTime()` is monotonically non-decreasing in the
engine clock (absent an intervening seek); the `[0, buffer duration]`
bound, however, does not hold — `seek` stores its target unclamped and the
reported position keeps growing past the buffer's end. -/
theorem position_monotone_while_playing (s : EngineState) (c₁ c₂ : ℚ)
    (hplay : s.isPlaying = true) (h : c₁ ≤ c₂) :
    getCurrentTime c₁ s ≤ getCurrentTime c₂ s := by
  cases hc : s.hasContext
  · simp [getCurrentTime, hc]
  · simp [getCurrentTime, hc, hplay]
    linarith

/-- Witness for the amended C1 at the playing state `sPlaying` and clocks
5 ≤ 6. -/
theorem position_monotone_while_playing_witness :
    getCurrentTime 5 sPlaying ≤ getCurrentTime 6 sPlaying :=
  position_monotone_while_playing sPlaying 5 6 (by decide) (by norm_num)

/-- C2 is false as stated: on a loaded 10-second buffer, `seek(-1)` stores
`-1` where the claimed clamp to `[0, duration]` is 0, and
`setStemVolume('low', 3/2)` while playing sets the gain target to `3/2`
where the claimed clamp to `[0, 1]` is 1 — neither value is clamped. -/
theorem clamping_counterexample :
    (seek 0 0 (-1) sLoaded).pausedAt = -1 ∧
    specClamp 0 (getDuration sLoaded) (-1) = 0 ∧
    (seek 0 0 (-1) sLoaded).pausedAt
      ≠ specClamp 0 (getDuration sLoaded) (-1) ∧
    stemGainTarget sPlayingVol .low = some (3/2) ∧
    specClamp 0 1 (3/2) = 1 ∧
    stemGainTarget sPlayingVol .low ≠ some (specClamp 0 1 (3/2)) := by
  have hA : (seek 0 0 (-1) sLoaded).pausedAt = -1 := by decide
  have hB : specClamp 0 (getDuration sLoaded) (-1) = 0 := by
    norm_num [specClamp, getDuration, sLoaded, loadFile, stop, pause,
      initState]
  have hC : stemGainTarget sPlayingVol .low = some (3/2) := by
    norm_num [sPlayingVol, setStemVolume, sPlaying, play, sLoaded,
      loadFile, stop, pause, initState, stemGainTarget, stemGainParam,
      GainParam.currentTargetValue]
  have hD : specClamp 0 1 ((3:ℚ)/2) = 1 := by norm_num [specClamp]
  refine ⟨hA, hB, ?_, hC, hD, ?_⟩
  · rw [hA, hB]
    norm_num
  · rw [hC, hD]
    norm_num

/-- C2 (amended): out-of-range parameters are accepted without error but
are not clamped — `seek(t)` stores exactly `t` as the paused position for
every rational `t`, and `setStemVolume(band, v)` sets the band's gain
target to exactly `v` for every rational `v` whenever the band's gain node
exists; both operations are total. -/
theorem params_stored_unclamped (s : EngineState) (b : AudioBuffer)
    (c₁ c₂ c₃ t v : ℚ) (stem : Stem)
    (hctx : s.hasContext = true) (hbuf : s.buffer = some b)
    (hnode : (stemGainParam s stem).isSome = true) :
    (seek c₁ c₂ t s).pausedAt = t ∧
    stemGainTarget (setStemVolume c₃ stem v s) stem = some v := by
  constructor
  · cases hp : s.isPlaying <;> cases hsrc : s.sourceNode <;>
      simp [seek, play, pause, hctx, hbuf, hp, hsrc]
  · have hg := setStemVolume_gainParam c₃ stem v s hctx hnode
    simp [stemGainTarget, hg, GainParam.currentTargetValue]

/-- Witness for the amended C2 at the playing state `sPlaying`: a seek to
7/2 and a mid-band gain of 1/4. -/
theorem params_stored_unclamped_witness :
    (seek 1 2 (7/2) sPlaying).pausedAt = 7/2 ∧
    stemGainTarget (setStemVolume 4 .mid (1/4) sPlaying) .mid
      = some (1/4) :=
  params_stored_unclamped sPlaying { duration := 10 } 1 2 4 (7/2) (1/4)
    .mid (by decide) (by decide) (by decide)

/-- C5: muting a band forwards gain 0 to the engine, and unmuting forwards
the stored slider value, so a mute/unmute round trip restores the applied
gain exactly — including when the slider moved while the band was muted, in
which case the latest slider value is applied on unmute. -/
theorem mute_unmute_roundtrip (a : AppState) (id : Stem)
    (c₁ c₂ c₃ c₄ g' : ℚ)
    (hmute : a.stemMutes.get id = false)
    (hctx : a.engine.hasContext = true)
    (hnode : (stemGainParam a.engine id).isSome = true) :
    stemGainTarget ((handleStemMute c₁ id a).engine) id = some 0 ∧
    stemGainTarget ((handleStemMute c₂ id (handleStemMute c₁ id a)).engine)
      id = some (a.stemVolumes.get id) ∧
    stemGainTarget ((handleStemMute c₄ id (handleStemVolumeChange c₃ id g'
      (handleStemMute c₁ id a))).engine) id = some g' := by
  have hctx1 : (setStemVolume c₁ id 0 a.engine).hasContext = true := by
    rw [(setStemVolume_preserves c₁ id 0 a.engine).1]
    exact hctx
  have hg1 := setStemVolume_gainParam c₁ id 0 a.engine hctx hnode
  have hnode1 :
      (stemGainParam (setStemVolume c₁ id 0 a.engine) id).isSome = true := by
    rw [hg1]
    rfl
  refine ⟨?_, ?_, ?_⟩
  · simp [handleStemMute, hmute, stemGainTarget, hg1,
      GainParam.currentTargetValue]
  · have hg2 := setStemVolume_gainParam c₂ id (a.stemVolumes.get id) _
      hctx1 hnode1
    simp [handleStemMute, hmute, StemMap.get_set, stemGainTarget, hg2,
      GainParam.currentTargetValue]
  · have hg3 := setStemVolume_gainParam c₄ id g' _ hctx1 hnode1
    simp [handleStemMute, handleStemVolumeChange, hmute, StemMap.get_set,
      stemGainTarget, hg3, GainParam.currentTargetValue]

/-- Witness for C5 at `appLoaded` (engine playing, high band unmuted at
slider value 1), with a slider move to 2/5 while muted. -/
theorem mute_unmute_roundtrip_witness :
    stemGainTarget ((handleStemMute 8 .high appLoaded).engine) .high
      = some 0 ∧
    stemGainTarget
      ((handleStemMute 9 .high (handleStemMute 8 .high appLoaded)).engine)
      .high = some (appLoaded.stemVolumes.get .high) ∧
    stemGainTarget ((handleStemMute 11 .high (handleStemVolumeChange 10
      .high (2/5) (handleStemMute 8 .high appLoaded))).engine) .high
      = some (2/5) :=
  mute_unmute_roundtrip appLoaded .high 8 9 10 11 (2/5) (by decide)
    (by decide) (by decide)

/-- C6 is false as stated: from a paused engine holding a 10-second buffer
at position 3, a `loadFile` whose decode fails does reject, but the engine
does not keep its prior state — the buffer is already discarded and the
position reset to 0 before the decode is attempted, so duration reads 0
afterwards. -/
theorem load_failure_counterexample :
    sPaused.buffer = some { duration := 10 } ∧
    sPaused.pausedAt = 3 ∧
    (loadFile 6 none sPaused).2 = .error "Failed to decode audio data." ∧
    (loadFile 6 none sPaused).1.buffer = none ∧
    (loadFile 6 none sPaused).1.pausedAt = 0 ∧
    getDuration (loadFile 6 none sPaused).1 = 0 := by
  refine ⟨by decide, ?_, by decide, by decide, by decide, by decide⟩
  norm_num [sPaused, pause, sPlaying, play, sLoaded, loadFile, stop,
    initState]

/-- C6 (amended): a decode failure is terminal for that load attempt, but
the engine does not remain in its prior state: `loadFile` stops playback,
zeroes the position and discards the previous buffer before decoding, so
after the failure the engine has no buffer, duration 0, position 0 and is
not playing — as if nothing had ever been loaded — whatever was loaded
before.  (The disjunctive hypothesis is the engine's invariant that a
playing engine has a source node.) -/
theorem load_failure_resets_engine (c : ℚ) (s : EngineState)
    (hctx : s.hasContext = true)
    (hinv : s.isPlaying = false ∨ s.sourceNode.isSome = true) :
    (loadFile c none s).2 = .error "Failed to decode audio data." ∧
    (loadFile c none s).1.buffer = none ∧
    (loadFile c none s).1.pausedAt = 0 ∧
    (loadFile c none s).1.isPlaying = false ∧
    getDuration (loadFile c none s).1 = 0 := by
  refine ⟨by simp [loadFile, hctx], by simp [loadFile, hctx],
    by simp [loadFile, stop, hctx], ?_, by simp [loadFile, getDuration, hctx]⟩
  rcases hinv with hp | hsrc
  · simp [loadFile, stop, pause, hctx, hp]
  · obtain ⟨src, hs⟩ := Option.isSome_iff_exists.mp hsrc
    cases hp : s.isPlaying <;> simp [loadFile, stop, pause, hctx, hp, hs]

/-- Witness for the amended C6 at the loaded state `sLoaded`. -/
theorem load_failure_resets_engine_witness :
    (loadFile 6 none sLoaded).2 = .error "Failed to decode audio data." ∧
    (loadFile 6 none sLoaded).1.buffer = none ∧
    (loadFile 6 none sLoaded).1.pausedAt = 0 ∧
    (loadFile 6 none sLoaded).1.isPlaying = false ∧
    getDuration (loadFile 6 none sLoaded).1 = 0 :=
  load_failure_resets_engine 6 sLoaded (by decide) (Or.inl (by decide))

/-- C7: every transition into playing builds the Low band as a second-order
low-pass at 250 Hz, the Mid band as a second-order high-pass at 250 Hz
cascaded into a second-order low-pass at 4000 Hz, the High band as a
second-order high-pass at 4000 Hz, with the fixed source-to-destination
routing; and the configuration is identical constants on every rebuild,
from any non-playing state at any clock. -/
theorem crossover_topology_deterministic (s s' : EngineState)
    (b b' : AudioBuffer) (c c' : ℚ)
    (hctx : s.hasContext = true) (hbuf : s.buffer = some b)
    (hplay : s.isPlaying = false)
    (hctx' : s'.hasContext = true) (hbuf' : s'.buffer = some b')
    (hplay' : s'.isPlaying = false) :
    (play c s).lowFilter
      = some { ftype := .lowpass, frequency := 250, order := 2 } ∧
    (play c s).midLowFilter
      = some { ftype := .highpass, frequency := 250, order := 2 } ∧
    (play c s).midHighFilter
      = some { ftype := .lowpass, frequency := 4000, order := 2 } ∧
    (play c s).highFilter
      = some { ftype := .highpass, frequency := 4000, order := 2 } ∧
    (play c s).connections = playConnections ∧
    (play c' s').lowFilter = (play c s).lowFilter ∧
    (play c' s').midLowFilter = (play c s).midLowFilter ∧
    (play c' s').midHighFilter = (play c s).midHighFilter ∧
    (play c' s').highFilter = (play c s).highFilter ∧
    (play c' s').connections = (play c s).connections := by
  refine ⟨?_, ?_, ?_, ?_, ?_, ?_, ?_, ?_, ?_, ?_⟩ <;>
    simp [play, hctx, hbuf, hplay, hctx', hbuf', hplay']

/-- Witness for C7 at the loaded state `sLoaded` (first play, clock 3) and
the paused state `sPaused` (rebuild, clock 9). -/
theorem crossover_topology_deterministic_witness :
    (play 3 sLoaded).lowFilter
      = some { ftype := .lowpass, frequency := 250, order := 2 } ∧
    (play 3 sLoaded).midLowFilter
      = some { ftype := .highpass, frequency := 250, order := 2 } ∧
    (play 3 sLoaded).midHighFilter
      = some { ftype := .lowpass, frequency := 4000, order := 2 } ∧
    (play 3 sLoaded).highFilter
      = some { ftype := .highpass, frequency := 4000, order := 2 } ∧
    (play 3 sLoaded).connections = playConnections ∧
    (play 9 sPaused).lowFilter = (play 3 sLoaded).lowFilter ∧
    (play 9 sPaused).midLowFilter = (play 3 sLoaded).midLowFilter ∧
    (play 9 sPaused).midHighFilter = (play 3 sLoaded).midHighFilter ∧
    (play 9 sPaused).highFilter = (play 3 sLoaded).highFilter ∧
    (play 9 sPaused).connections = (play 3 sLoaded).connections :=
  crossover_topology_deterministic sLoaded sPaused { duration := 10 }
    { duration := 10 } 3 9 (by decide) (by decide) (by decide) (by decide)
    (by decide) (by decide)

/-- C8 is false as stated: setting the low-band gain to 1/2 while paused is
accepted (it retargets the stale node from the previous run), but the graph
freshly built by the next `play()` starts at the default gain 1, not at the
set value — the engine stores no per-band gain. -/
theorem paused_gain_counterexample :
    sPaused.isPlaying = false ∧
    stemGainTarget sPausedVol .low = some (1/2) ∧
    sReplayed.isPlaying = true ∧
    stemGainTarget sReplayed .low = some 1 ∧
    stemGainTarget sReplayed .low ≠ some (1/2) := by
  have h1 : stemGainTarget sPausedVol .low = some (1/2) := by
    norm_num [sPausedVol, setStemVolume, sPaused, sPlaying, play, pause,
      sLoaded, loadFile, stop, initState, stemGainTarget, stemGainParam,
      GainParam.currentTargetValue]
  have h2 : stemGainTarget sReplayed .low = some 1 := by
    norm_num [sReplayed, sPausedVol, setStemVolume, sPaused, sPlaying,
      play, pause, sLoaded, loadFile, stop, initState, stemGainTarget,
      stemGainParam, GainParam.currentTargetValue]
  refine ⟨by decide, h1, by decide, h2, ?_⟩
  rw [h2]
  norm_num

/-- C8 (amended): `setStemVolume` is accepted at any time without error;
whenever the addressed gain node exists — in particular while playing — it
ramps the live gain toward the value via `setTargetAtTime` with a 0.1 s
time constant rather than jumping; but a value set while paused is not
persisted by the engine: the graph built by the next `play()` starts every
band at the default gain 1 (the UI separately re-applies its stored slider
values shortly after play). -/
theorem gain_changes_ramped_not_persisted (sp spz : EngineState)
    (stem : Stem) (c c' c'' v w : ℚ) (b : AudioBuffer)
    (hctx : sp.hasContext = true) (hplay : sp.isPlaying = true)
    (hnode : (stemGainParam sp stem).isSome = true)
    (hctx' : spz.hasContext = true) (hplay' : spz.isPlaying = false)
    (hnode' : (stemGainParam spz stem).isSome = true)
    (hbuf : spz.buffer = some b) :
    stemGainParam (setStemVolume c stem v sp) stem
      = some (.targetAt v c (1/10)) ∧
    stemGainParam (setStemVolume c' stem w spz) stem
      = some (.targetAt w c' (1/10)) ∧
    stemGainParam (play c'' (setStemVolume c' stem w spz)) stem
      = some .initial ∧
    GainParam.currentTargetValue .initial = 1 := by
  have hpres := setStemVolume_preserves c' stem w spz
  refine ⟨setStemVolume_gainParam c stem v sp hctx hnode,
    setStemVolume_gainParam c' stem w spz hctx' hnode', ?_, rfl⟩
  exact play_stemGainParam c'' _ b stem (by rw [hpres.1]; exact hctx')
    (by rw [hpres.2.1]; exact hbuf) (by rw [hpres.2.2]; exact hplay')

/-- Witness for the amended C8 at the playing state `sPlaying` (mid gain to
3/4 at clock 3) and the paused state `sPaused` (mid gain to 1/2 at clock 6,
replayed at clock 7). -/
theorem gain_changes_ramped_not_persisted_witness :
    stemGainParam (setStemVolume 3 .mid (3/4) sPlaying) .mid
      = some (.targetAt (3/4) 3 (1/10)) ∧
    stemGainParam (setStemVolume 6 .mid (1/2) sPaused) .mid
      = some (.targetAt (1/2) 6 (1/10)) ∧
    stemGainParam (play 7 (setStemVolume 6 .mid (1/2) sPaused)) .mid
      = some .initial ∧
    GainParam.currentTargetValue .initial = 1 :=
  gain_changes_ramped_not_persisted sPlaying sPaused .mid 3 6 7 (3/4)
    (1/2) { duration := 10 } (by decide) (by decide) (by decide)
    (by decide) (by decide) (by decide) (by decide)

/-- C9 is false as stated: when nothing has been played yet, the spectrum
query does not return a frame of zero magnitudes of the fixed bin size — it
returns nothing at all (`getAnalyser()` is null), and the Visualizer's
render pass draws nothing for that frame. -/
theorem analyser_missing_counterexample :
    getAnalyser (initState true) = none ∧
    visualizerStep (getAnalyser (initState true)) = none := by
  exact ⟨rfl, rfl⟩

/-- C9 (amended): when no graph has ever been built, `getAnalyser()`
returns null — no frame of any size — and the Visualizer's render pass
checks for null and skips drawing rather than failing; once `play()` has
built a graph the analyser exists with the fixed `fftSize` 2048 (1024
bins), and it persists across a subsequent `stop()`. -/
theorem analyser_null_skips_frame (hc : Bool) (s : EngineState)
    (c c' : ℚ) (b : AudioBuffer)
    (hctx : s.hasContext = true) (hbuf : s.buffer = some b)
    (hplay : s.isPlaying = false) :
    getAnalyser (initState hc) = none ∧
    visualizerStep (getAnalyser (initState hc)) = none ∧
    getAnalyser (play c s)
      = some { fftSize := 2048, smoothingTimeConstant := 85/100 } ∧
    visualizerStep (getAnalyser (play c s)) = some 1024 ∧
    getAnalyser (stop c' (play c s)) = getAnalyser (play c s) := by
  refine ⟨rfl, rfl, ?_, ?_, ?_⟩
  · simp [play, getAnalyser, hctx, hbuf, hplay]
  · simp [play, getAnalyser, visualizerStep, hctx, hbuf, hplay]
  · show (stop c' (play c s)).analyser = (play c s).analyser
    have h := pause_analyser c' (play c s)
    simpa [stop] using h

/-- Witness for the amended C9 at a context-less constructor state and the
loaded state `sLoaded` played at clock 3 and stopped at clock 9. -/
theorem analyser_null_skips_frame_witness :
    getAnalyser (initState false) = none ∧
    visualizerStep (getAnalyser (initState false)) = none ∧
    getAnalyser (play 3 sLoaded)
      = some { fftSize := 2048, smoothingTimeConstant := 85/100 } ∧
    visualizerStep (getAnalyser (play 3 sLoaded)) = some 1024 ∧
    getAnalyser (stop 9 (play 3 sLoaded)) = getAnalyser (play 3 sLoaded) :=
  analyser_null_skips_frame false sLoaded 3 9 { duration := 10 }
    (by decide) (by decide) (by decide)

end MixCheck
